import Mathlib

/-!
Verification of the unified Kubernetes resource accessor
(`src/pkg/kubernetes/client.go`).

The Go code keeps a registry cache `map[schema.GroupVersionResource]*ResourceInfo`
inside `UnifiedClient`, rebuilt by `discoverResources` (clear, then
`discoverCoreResources`, then `discoverCustomResources`), guarded by a
5-minute TTL in `ensureFreshCache`, and consulted by `Get` / `List` /
`ResourceExists` / `ListAvailableResources`.

Shallow embedding choices:
* the Go map is an association list with unique keys (`Cache`); `cacheInsert`
  models Go map assignment (update the existing entry or append), `cacheLookup`
  models map indexing;
* wall-clock time is a `Nat` (seconds); `time.Since(lastDiscovery)` is
  `now - lastDiscovery` (Go's negative durations and Nat's truncated
  subtraction both compare `> cacheTimeout` as false);
* the one fallible network call of a discovery pass — listing
  CustomResourceDefinitions — is a parameter `crdResult : Except String (List CRDSpec)`;
* typed / dynamic fetches are cut off at the point of network I/O: the
  accessor returns the `Route` it dispatched to (or the error raised before
  dispatch), which is what the routing and validation claims are about;
* the caller's output target (`obj any` in Go, tested with
  `obj.(*unstructured.Unstructured)` resp. `*unstructured.UnstructuredList`)
  is an `OutputShape`;
* the Go errors are `fmt.Errorf` values with distinct format strings; they are
  embedded as the constructors of `KError` (`discoveryError` for a wrapped CRD
  listing failure, `notFound` for "resource %v not found in cluster",
  `scopeError` for "resource %v is cluster-scoped, cannot specify namespace",
  `unsupportedKind` for "unsupported core resource: %v").
-/

namespace Kube

/-- `schema.GroupVersionResource`: the identity triple. -/
structure GroupVersionResource where
  group : String
  version : String
  resource : String
deriving DecidableEq, Repr

/-- `schema.GroupVersionKind`: kind identity used for decoding. -/
structure GroupVersionKind where
  group : String
  version : String
  kind : String
deriving DecidableEq, Repr

/-- `ResourceInfo` from client.go: one registry descriptor. -/
structure ResourceInfo where
  gvr : GroupVersionResource
  gvk : GroupVersionKind
  namespaced : Bool
  isCustom : Bool
deriving DecidableEq, Repr

/-- The registry cache `map[schema.GroupVersionResource]*ResourceInfo`,
as an association list. -/
abbrev Cache := List (GroupVersionResource × ResourceInfo)

/-- Go map indexing `c.resourceCache[gvr]`. -/
def cacheLookup : Cache → GroupVersionResource → Option ResourceInfo
  | [], _ => none
  | p :: t, k => if p.1 = k then some p.2 else cacheLookup t k

/-- Go map assignment `c.resourceCache[gvr] = info`: replace the entry with
this key if present, otherwise append. -/
def cacheInsert : Cache → GroupVersionResource → ResourceInfo → Cache
  | [], k, v => [(k, v)]
  | p :: t, k, v => if p.1 = k then (k, v) :: t else p :: cacheInsert t k v

/-- The keys of the cache. -/
def cacheKeys (m : Cache) : List GroupVersionResource :=
  m.map Prod.fst

theorem cacheLookup_insert_self (m : Cache) (k : GroupVersionResource)
    (v : ResourceInfo) : cacheLookup (cacheInsert m k v) k = some v := by
  induction m with
  | nil => simp [cacheInsert, cacheLookup]
  | cons p t ih =>
      by_cases h : p.1 = k
      · simp [cacheInsert, cacheLookup, h]
      · simp [cacheInsert, cacheLookup, h, ih]

theorem cacheLookup_insert_ne (m : Cache) (k k' : GroupVersionResource)
    (v : ResourceInfo) (h : k' ≠ k) :
    cacheLookup (cacheInsert m k v) k' = cacheLookup m k' := by
  have hkk : ¬ k = k' := fun h' => h (Eq.symm h')
  induction m with
  | nil => simp [cacheInsert, cacheLookup, hkk]
  | cons p t ih =>
      by_cases hp : p.1 = k
      · simp [cacheInsert, cacheLookup, hp, hkk]
      · simp [cacheInsert, cacheLookup, hp, ih]

theorem mem_cacheKeys_insert (m : Cache) (k x : GroupVersionResource)
    (v : ResourceInfo) (hx : x ∈ cacheKeys (cacheInsert m k v)) :
    x = k ∨ x ∈ cacheKeys m := by
  induction m with
  | nil => simpa [cacheInsert, cacheKeys] using hx
  | cons p t ih =>
      by_cases hp : p.1 = k
      · simp only [cacheInsert, hp, if_pos, cacheKeys, List.map_cons,
          List.mem_cons] at hx ⊢
        rcases hx with h | h
        · exact Or.inl h
        · exact Or.inr (Or.inr h)
      · simp only [cacheInsert, hp, if_neg, not_false_iff, cacheKeys,
          List.map_cons, List.mem_cons] at hx ⊢
        rcases hx with h | h
        · exact Or.inr (Or.inl h)
        · rcases ih h with h' | h'
          · exact Or.inl h'
          · exact Or.inr (Or.inr h')

theorem cacheKeys_insert_nodup (m : Cache) (k : GroupVersionResource)
    (v : ResourceInfo) (h : (cacheKeys m).Nodup) :
    (cacheKeys (cacheInsert m k v)).Nodup := by
  induction m with
  | nil => simp [cacheInsert, cacheKeys]
  | cons p t ih =>
      simp only [cacheKeys, List.map_cons, List.nodup_cons] at h
      by_cases hp : p.1 = k
      · subst hp
        simpa [cacheInsert, cacheKeys] using h
      · have ht := ih h.2
        simp only [cacheInsert, hp, if_neg, not_false_iff, cacheKeys,
          List.map_cons, List.nodup_cons]
        refine ⟨fun hmem => ?_, ht⟩
        rcases mem_cacheKeys_insert t k p.1 v hmem with h' | h'
        · exact hp h'
        · exact h.1 h'

/-- Insert a list of descriptors, each keyed by its own identity triple
(the shape of every insertion loop in client.go). -/
def insertInfos (m : Cache) (l : List ResourceInfo) : Cache :=
  l.foldl (fun acc i => cacheInsert acc i.gvr i) m

/-- The fixed `coreResources` literal of `discoverCoreResources`
(client.go lines 115-143): nine built-in kinds, never queried from the
cluster. -/
def coreResources : List ResourceInfo :=
  [ { gvr := ⟨"", "v1", "pods"⟩, gvk := ⟨"", "v1", "Pod"⟩,
      namespaced := true, isCustom := false }
  , { gvr := ⟨"", "v1", "services"⟩, gvk := ⟨"", "v1", "Service"⟩,
      namespaced := true, isCustom := false }
  , { gvr := ⟨"", "v1", "configmaps"⟩, gvk := ⟨"", "v1", "ConfigMap"⟩,
      namespaced := true, isCustom := false }
  , { gvr := ⟨"", "v1", "secrets"⟩, gvk := ⟨"", "v1", "Secret"⟩,
      namespaced := true, isCustom := false }
  , { gvr := ⟨"", "v1", "namespaces"⟩, gvk := ⟨"", "v1", "Namespace"⟩,
      namespaced := false, isCustom := false }
  , { gvr := ⟨"apps", "v1", "deployments"⟩, gvk := ⟨"apps", "v1", "Deployment"⟩,
      namespaced := true, isCustom := false }
  , { gvr := ⟨"apps", "v1", "replicasets"⟩, gvk := ⟨"apps", "v1", "ReplicaSet"⟩,
      namespaced := true, isCustom := false }
  , { gvr := ⟨"apps", "v1", "daemonsets"⟩, gvk := ⟨"apps", "v1", "DaemonSet"⟩,
      namespaced := true, isCustom := false }
  , { gvr := ⟨"apps", "v1", "statefulsets"⟩, gvk := ⟨"apps", "v1", "StatefulSet"⟩,
      namespaced := true, isCustom := false } ]

/-- `discoverCoreResources`: insert the fixed core list into the cache.
It takes no cluster input and, in the Go code, always returns a nil error. -/
def discoverCoreResources (m : Cache) : Cache :=
  insertInfos m coreResources

/-- One entry of `crd.Spec.Versions`
(`apiextv1.CustomResourceDefinitionVersion`, as used by the code). -/
structure CRDVersion where
  name : String
  served : Bool
deriving DecidableEq, Repr

/-- `crd.Spec.Names`, as used by the code. -/
structure CRDNames where
  plural : String
  kind : String
deriving DecidableEq, Repr

/-- The fields of `crd.Spec` the discovery loop reads. -/
structure CRDSpec where
  group : String
  names : CRDNames
  scope : String
  versions : List CRDVersion
deriving DecidableEq, Repr

/-- The constant `apiextv1.NamespaceScoped` ("Namespaced"). -/
def NamespaceScoped : String := "Namespaced"

/-- The `ResourceInfo` the CRD loop body builds for one served version
(client.go lines 169-186). -/
def crdVersionInfo (crd : CRDSpec) (v : CRDVersion) : ResourceInfo :=
  { gvr := ⟨crd.group, v.name, crd.names.plural⟩
  , gvk := ⟨crd.group, v.name, crd.names.kind⟩
  , namespaced := crd.scope == NamespaceScoped
  , isCustom := true }

/-- The descriptors one CRD emits: one per served version, in version order
(the inner loop with its `continue` on unserved versions). -/
def crdServedInfos (crd : CRDSpec) : List ResourceInfo :=
  (crd.versions.filter (fun v => v.served)).map (fun v => crdVersionInfo crd v)

/-- `discoverCustomResources`, given the already-fetched CRD list: insert
every served version's descriptor of every CRD, in order. -/
def discoverCustomResources (m : Cache) (crds : List CRDSpec) : Cache :=
  crds.foldl (fun acc crd => insertInfos acc (crdServedInfos crd)) m

/-- The mutable fields of `UnifiedClient` the cache logic touches:
`resourceCache` and `lastDiscovery`. -/
structure ClientState where
  resourceCache : Cache
  lastDiscovery : Nat
deriving DecidableEq, Repr

/-- `cacheTimeout`, fixed to 5 minutes in `NewUnifiedClient` (seconds). -/
def cacheTimeout : Nat := 5 * 60

/-- `discoverResources`: clear the cache, repopulate with the core list,
then list CRDs and add their served versions.  The CRD listing is the one
fallible step (`crdResult`); on failure the method returns the error after
the clear and the core inserts have already mutated the receiver, and
`lastDiscovery` is only advanced on success. -/
def discoverResources (s : ClientState) (now : Nat)
    (crdResult : Except String (List CRDSpec)) : ClientState × Option String :=
  let core := discoverCoreResources []
  match crdResult with
  | .error e => ({ s with resourceCache := core }, some e)
  | .ok crds =>
      ({ resourceCache := discoverCustomResources core crds,
         lastDiscovery := now }, none)

/-- `ensureFreshCache`: rebuild when `time.Since(lastDiscovery) > cacheTimeout`,
otherwise leave the state untouched. -/
def ensureFreshCache (s : ClientState) (now : Nat)
    (crdResult : Except String (List CRDSpec)) : ClientState × Option String :=
  if now - s.lastDiscovery > cacheTimeout then discoverResources s now crdResult
  else (s, none)

/-- The error classes the client returns (distinct `fmt.Errorf` format
strings in the Go code; see the module comment). -/
inductive KError where
  | discoveryError (msg : String)
  | notFound (gvr : GroupVersionResource)
  | scopeError (gvr : GroupVersionResource)
  | unsupportedKind (gvr : GroupVersionResource)
deriving DecidableEq, Repr

/-- The runtime type of the caller's output target `obj any`:
`*unstructured.Unstructured` / `*unstructured.UnstructuredList`,
or a typed pointer. -/
inductive OutputShape where
  | unstructured
  | typed
deriving DecidableEq, Repr

/-- The fetch path a request is dispatched to, recorded at the point the Go
code performs network I/O: a typed-client call or a dynamic-client call. -/
inductive Route where
  | typedFetch (gvr : GroupVersionResource) (ns : String)
  | dynamicFetch (gvr : GroupVersionResource) (ns : String)
deriving DecidableEq, Repr

def podsGVR : GroupVersionResource := ⟨"", "v1", "pods"⟩

def servicesGVR : GroupVersionResource := ⟨"", "v1", "services"⟩

def configmapsGVR : GroupVersionResource := ⟨"", "v1", "configmaps"⟩

def secretsGVR : GroupVersionResource := ⟨"", "v1", "secrets"⟩

def namespacesGVR : GroupVersionResource := ⟨"", "v1", "namespaces"⟩

def deploymentsGVR : GroupVersionResource := ⟨"apps", "v1", "deployments"⟩

def replicasetsGVR : GroupVersionResource := ⟨"apps", "v1", "replicasets"⟩

def daemonsetsGVR : GroupVersionResource := ⟨"apps", "v1", "daemonsets"⟩

def statefulsetsGVR : GroupVersionResource := ⟨"apps", "v1", "statefulsets"⟩

/-- `getResourceInfo`: refresh if stale, then look the triple up;
`fmt.Errorf("resource %v not found in cluster", gvr)` when absent. -/
def getResourceInfo (s : ClientState) (now : Nat)
    (crdResult : Except String (List CRDSpec)) (gvr : GroupVersionResource) :
    ClientState × Except KError ResourceInfo :=
  match ensureFreshCache s now crdResult with
  | (s', some e) => (s', .error (.discoveryError e))
  | (s', none) =>
      match cacheLookup s'.resourceCache gvr with
      | some info => (s', .ok info)
      | none => (s', .error (.notFound gvr))

/-- `getDynamicResource` up to its network call: always a dynamic fetch. -/
def getDynamicResource (gvr : GroupVersionResource) (ns : String) :
    Except KError Route :=
  .ok (.dynamicFetch gvr ns)

/-- `listDynamicResource` up to its network call: always a dynamic fetch. -/
def listDynamicResource (gvr : GroupVersionResource) (ns : String) :
    Except KError Route :=
  .ok (.dynamicFetch gvr ns)

/-- `getTypedResource`: an unstructured target is delegated to the dynamic
client; otherwise the `switch gvr` covers pods, services and deployments,
and the default branch is `fmt.Errorf("unsupported core resource: %v", gvr)`. -/
def getTypedResource (gvr : GroupVersionResource) (ns : String)
    (shape : OutputShape) : Except KError Route :=
  if shape = .unstructured then getDynamicResource gvr ns
  else if gvr = podsGVR then .ok (.typedFetch gvr ns)
  else if gvr = servicesGVR then .ok (.typedFetch gvr ns)
  else if gvr = deploymentsGVR then .ok (.typedFetch gvr ns)
  else .error (.unsupportedKind gvr)

/-- `listTypedResource`: an unstructured-list target is delegated to the
dynamic client; the `switch gvr` covers only pods and deployments, and the
default branch is the same "unsupported core resource" error. -/
def listTypedResource (gvr : GroupVersionResource) (ns : String)
    (shape : OutputShape) : Except KError Route :=
  if shape = .unstructured then listDynamicResource gvr ns
  else if gvr = podsGVR then .ok (.typedFetch gvr ns)
  else if gvr = deploymentsGVR then .ok (.typedFetch gvr ns)
  else .error (.unsupportedKind gvr)

/-- `UnifiedClient.Get`: resolve the descriptor, validate namespace use
(`namespace != "" && !resourceInfo.Namespaced` fails with the scope error),
then dispatch on `IsCustom`. -/
def Get (s : ClientState) (now : Nat)
    (crdResult : Except String (List CRDSpec)) (gvr : GroupVersionResource)
    (ns : String) (shape : OutputShape) : ClientState × Except KError Route :=
  match getResourceInfo s now crdResult gvr with
  | (s', .error e) => (s', .error e)
  | (s', .ok info) =>
      if ns ≠ "" ∧ info.namespaced = false then (s', .error (.scopeError gvr))
      else if info.isCustom = false then (s', getTypedResource gvr ns shape)
      else (s', getDynamicResource gvr ns)

/-- `UnifiedClient.List` (named `ListOp` here because `List` is taken by
Lean): same resolution and validation as `Get`, dispatching to
`listTypedResource` / `listDynamicResource`. -/
def ListOp (s : ClientState) (now : Nat)
    (crdResult : Except String (List CRDSpec)) (gvr : GroupVersionResource)
    (ns : String) (shape : OutputShape) : ClientState × Except KError Route :=
  match getResourceInfo s now crdResult gvr with
  | (s', .error e) => (s', .error e)
  | (s', .ok info) =>
      if ns ≠ "" ∧ info.namespaced = false then (s', .error (.scopeError gvr))
      else if info.isCustom = false then (s', listTypedResource gvr ns shape)
      else (s', listDynamicResource gvr ns)

/-- `ListAvailableResources`: refresh if stale, then return every cached
descriptor. -/
def ListAvailableResources (s : ClientState) (now : Nat)
    (crdResult : Except String (List CRDSpec)) :
    ClientState × Except KError (List ResourceInfo) :=
  match ensureFreshCache s now crdResult with
  | (s', some e) => (s', .error (.discoveryError e))
  | (s', none) => (s', .ok (s'.resourceCache.map Prod.snd))

/-- `ListCustomResources`: `ListAvailableResources` filtered on `IsCustom`. -/
def ListCustomResources (s : ClientState) (now : Nat)
    (crdResult : Except String (List CRDSpec)) :
    ClientState × Except KError (List ResourceInfo) :=
  match ListAvailableResources s now crdResult with
  | (s', .error e) => (s', .error e)
  | (s', .ok l) => (s', .ok (l.filter (fun i => i.isCustom)))

/-- `ResourceExists`: `getResourceInfo` succeeded. -/
def ResourceExists (s : ClientState) (now : Nat)
    (crdResult : Except String (List CRDSpec)) (gvr : GroupVersionResource) :
    ClientState × Bool :=
  match getResourceInfo s now crdResult gvr with
  | (s', .ok _) => (s', true)
  | (s', .error _) => (s', false)

/-- `RefreshResourceCache`: an unconditional `discoverResources`. -/
def RefreshResourceCache (s : ClientState) (now : Nat)
    (crdResult : Except String (List CRDSpec)) : ClientState × Option String :=
  discoverResources s now crdResult

/-- `NewUnifiedClient`'s cache initialisation: zero-valued cache and
timestamp, then an initial `discoverResources` whose failure aborts
construction. -/
def NewUnifiedClient (now : Nat)
    (crdResult : Except String (List CRDSpec)) : Except String ClientState :=
  match discoverResources ⟨[], 0⟩ now crdResult with
  | (s, none) => .ok s
  | (_, some e) => .error e

theorem insertInfos_cons (m : Cache) (i : ResourceInfo) (t : List ResourceInfo) :
    insertInfos m (i :: t) = insertInfos (cacheInsert m i.gvr i) t :=
  rfl

theorem cacheLookup_insertInfos (l : List ResourceInfo) (m : Cache)
    (k : GroupVersionResource) :
    (cacheLookup (insertInfos m l) k = cacheLookup m k ∧ ∀ i ∈ l, i.gvr ≠ k) ∨
    (∃ i ∈ l, i.gvr = k ∧ cacheLookup (insertInfos m l) k = some i) := by
  induction l generalizing m with
  | nil => exact Or.inl ⟨rfl, by simp⟩
  | cons i t ih =>
      rw [insertInfos_cons]
      rcases ih (cacheInsert m i.gvr i) with ⟨heq, hnone⟩ | ⟨j, hj, hjk, hlook⟩
      · by_cases hk : i.gvr = k
        · right
          refine ⟨i, List.mem_cons_self i t, hk, ?_⟩
          rw [heq, ← hk]
          exact cacheLookup_insert_self m i.gvr i
        · left
          refine ⟨?_, ?_⟩
          · rw [heq, cacheLookup_insert_ne m i.gvr k i (fun h => hk (Eq.symm h))]
          · intro j hj
            rcases List.mem_cons.mp hj with rfl | hj
            · exact hk
            · exact hnone j hj
      · right
        exact ⟨j, List.mem_cons_of_mem i hj, hjk, hlook⟩

theorem cacheLookup_discoverCustom (crds : List CRDSpec) (m : Cache)
    (k : GroupVersionResource) :
    (cacheLookup (discoverCustomResources m crds) k = cacheLookup m k ∧
      ∀ crd ∈ crds, ∀ i ∈ crdServedInfos crd, i.gvr ≠ k) ∨
    (∃ crd ∈ crds, ∃ i ∈ crdServedInfos crd, i.gvr = k ∧
      cacheLookup (discoverCustomResources m crds) k = some i) := by
  induction crds generalizing m with
  | nil => exact Or.inl ⟨rfl, by simp⟩
  | cons crd t ih =>
      have hstep : discoverCustomResources m (crd :: t)
          = discoverCustomResources (insertInfos m (crdServedInfos crd)) t :=
        rfl
      rw [hstep]
      rcases ih (insertInfos m (crdServedInfos crd)) with
        ⟨heq, hnone⟩ | ⟨crd', hcrd', i, hi, hik, hlook⟩
      · rcases cacheLookup_insertInfos (crdServedInfos crd) m k with
          ⟨heq2, hnone2⟩ | ⟨i, hi, hik, hlook⟩
        · left
          refine ⟨by rw [heq, heq2], ?_⟩
          intro c hc j hj
          rcases List.mem_cons.mp hc with rfl | hc
          · exact hnone2 j hj
          · exact hnone c hc j hj
        · right
          exact ⟨crd, List.mem_cons_self crd t, i, hi, hik, by rw [heq, hlook]⟩
      · right
        exact ⟨crd', List.mem_cons_of_mem crd hcrd', i, hi, hik, hlook⟩

theorem crdServedInfos_isCustom (crd : CRDSpec) (i : ResourceInfo)
    (h : i ∈ crdServedInfos crd) : i.isCustom = true := by
  simp only [crdServedInfos, List.mem_map, List.mem_filter] at h
  obtain ⟨v, _, rfl⟩ := h
  rfl

theorem cacheKeys_insertInfos_nodup (l : List ResourceInfo) (m : Cache)
    (h : (cacheKeys m).Nodup) : (cacheKeys (insertInfos m l)).Nodup := by
  induction l generalizing m with
  | nil => exact h
  | cons i t ih =>
      rw [insertInfos_cons]
      exact ih (cacheInsert m i.gvr i) (cacheKeys_insert_nodup m i.gvr i h)

theorem cacheKeys_discoverCustom_nodup (crds : List CRDSpec) (m : Cache)
    (h : (cacheKeys m).Nodup) :
    (cacheKeys (discoverCustomResources m crds)).Nodup := by
  induction crds generalizing m with
  | nil => exact h
  | cons crd t ih =>
      exact ih (insertInfos m (crdServedInfos crd))
        (cacheKeys_insertInfos_nodup (crdServedInfos crd) m h)

theorem Get_fst (s : ClientState) (now : Nat)
    (c : Except String (List CRDSpec)) (gvr : GroupVersionResource)
    (ns : String) (shape : OutputShape) :
    (Get s now c gvr ns shape).1 = (getResourceInfo s now c gvr).1 := by
  rcases hres : getResourceInfo s now c gvr with ⟨s', r⟩
  rcases r with e | info
  · simp [Get, hres]
  · simp only [Get, hres]
    split_ifs <;> rfl

theorem ListOp_fst (s : ClientState) (now : Nat)
    (c : Except String (List CRDSpec)) (gvr : GroupVersionResource)
    (ns : String) (shape : OutputShape) :
    (ListOp s now c gvr ns shape).1 = (getResourceInfo s now c gvr).1 := by
  rcases hres : getResourceInfo s now c gvr with ⟨s', r⟩
  rcases r with e | info
  · simp [ListOp, hres]
  · simp only [ListOp, hres]
    split_ifs <;> rfl

theorem Get_snd (s : ClientState) (now : Nat)
    (c : Except String (List CRDSpec)) (gvr : GroupVersionResource)
    (ns : String) (shape : OutputShape) :
    (Get s now c gvr ns shape).2 =
      match (getResourceInfo s now c gvr).2 with
      | .error e => .error e
      | .ok info =>
          if ns ≠ "" ∧ info.namespaced = false then .error (.scopeError gvr)
          else if info.isCustom = false then getTypedResource gvr ns shape
          else getDynamicResource gvr ns := by
  rcases hres : getResourceInfo s now c gvr with ⟨s', r⟩
  rcases r with e | info
  · simp [Get, hres]
  · simp only [Get, hres]
    split_ifs <;> rfl

theorem ListOp_snd (s : ClientState) (now : Nat)
    (c : Except String (List CRDSpec)) (gvr : GroupVersionResource)
    (ns : String) (shape : OutputShape) :
    (ListOp s now c gvr ns shape).2 =
      match (getResourceInfo s now c gvr).2 with
      | .error e => .error e
      | .ok info =>
          if ns ≠ "" ∧ info.namespaced = false then .error (.scopeError gvr)
          else if info.isCustom = false then listTypedResource gvr ns shape
          else listDynamicResource gvr ns := by
  rcases hres : getResourceInfo s now c gvr with ⟨s', r⟩
  rcases r with e | info
  · simp [ListOp, hres]
  · simp only [ListOp, hres]
    split_ifs <;> rfl

theorem getResourceInfo_error_shape (s : ClientState) (now : Nat)
    (c : Except String (List CRDSpec)) (gvr : GroupVersionResource) (e : KError)
    (h : (getResourceInfo s now c gvr).2 = .error e) :
    (∃ msg, e = .discoveryError msg) ∨ e = .notFound gvr := by
  rcases hef : ensureFreshCache s now c with ⟨s', o⟩
  cases o with
  | none =>
      cases hl : cacheLookup s'.resourceCache gvr with
      | none =>
          simp only [getResourceInfo, hef, hl] at h
          right
          injection h with h'
          exact h'.symm
      | some info => simp [getResourceInfo, hef, hl] at h
  | some msg =>
      simp only [getResourceInfo, hef] at h
      injection h with h'
      exact Or.inl ⟨msg, h'.symm⟩

theorem getTypedResource_no_scopeError (gvr : GroupVersionResource)
    (ns : String) (shape : OutputShape) (g : GroupVersionResource) :
    getTypedResource gvr ns shape ≠ .error (.scopeError g) := by
  unfold getTypedResource getDynamicResource
  split_ifs <;> simp

theorem listTypedResource_no_scopeError (gvr : GroupVersionResource)
    (ns : String) (shape : OutputShape) (g : GroupVersionResource) :
    listTypedResource gvr ns shape ≠ .error (.scopeError g) := by
  unfold listTypedResource listDynamicResource
  split_ifs <;> simp

theorem listTypedResource_eq_getTyped (gvr : GroupVersionResource)
    (ns : String) (shape : OutputShape) (h : gvr ≠ servicesGVR) :
    listTypedResource gvr ns shape = getTypedResource gvr ns shape := by
  unfold listTypedResource getTypedResource
  by_cases h1 : shape = OutputShape.unstructured
  · simp [h1, listDynamicResource, getDynamicResource]
  · by_cases h2 : gvr = podsGVR
    · simp [h1, h2]
    · by_cases h3 : gvr = deploymentsGVR
      · simp [h1, h2, h3, h]
      · simp [h1, h2, h3, h]

/-- A cluster fixture: a namespaced CRD with one served and one unserved
version. -/
def widgetCRD : CRDSpec :=
  { group := "example.io"
  , names := { plural := "widgets", kind := "Widget" }
  , scope := "Namespaced"
  , versions := [⟨"v1", true⟩, ⟨"v1alpha1", false⟩] }

def widgetsGVR : GroupVersionResource := ⟨"example.io", "v1", "widgets"⟩

/-- A cluster fixture: a cluster-scoped CRD whose identity triple collides
with the built-in pods entry. -/
def podCloneCRD : CRDSpec :=
  { group := ""
  , names := { plural := "pods", kind := "Pod" }
  , scope := "Cluster"
  , versions := [⟨"v1", true⟩] }

/-- The client state after a successful discovery pass at time 1000 against
a cluster holding `widgetCRD`. -/
def builtState : ClientState :=
  (discoverResources ⟨[], 0⟩ 1000 (.ok [widgetCRD])).1

/-- The client state after `RefreshResourceCache` at time 1100 failed to
list CRDs. -/
def failedState : ClientState :=
  (RefreshResourceCache builtState 1100 (.error "connection refused")).1

/-- C1 fails as stated: after a successful pass cached a custom descriptor,
a refresh whose CRD listing fails surfaces the error, yet the registry has
dropped the custom entry and holds exactly the built-in entries of the
aborted pass, so `listAll` no longer returns the pre-refresh set. -/
theorem refresh_failure_drops_prior_entries :
    (RefreshResourceCache builtState 1100 (.error "connection refused")).2
        = some "connection refused" ∧
    cacheLookup builtState.resourceCache widgetsGVR
        = some ⟨widgetsGVR, ⟨"example.io", "v1", "Widget"⟩, true, true⟩ ∧
    cacheLookup failedState.resourceCache widgetsGVR = none ∧
    failedState.resourceCache = discoverCoreResources [] ∧
    ((ListAvailableResources failedState 1100 (.ok [widgetCRD])).2).toOption
        ≠ ((ListAvailableResources builtState 1100 (.ok [widgetCRD])).2).toOption :=
  ⟨rfl, rfl, rfl, rfl, by decide⟩

/-- C1 (amended): a discovery pass whose CRD listing fails surfaces the
error but leaves the registry holding exactly the built-in descriptors —
the map is cleared and repopulated with the core list before the failing
network call — with `lastDiscovery` unchanged; while that state persists
(within the TTL), `listAll` serves exactly the built-in set. -/
theorem discover_failure_leaves_core_only :
    ∀ (s : ClientState) (now : Nat) (e : String),
      discoverResources s now (.error e)
        = ({ resourceCache := discoverCoreResources [],
             lastDiscovery := s.lastDiscovery }, some e) ∧
      ∀ (now' : Nat) (c : Except String (List CRDSpec)),
        now' - s.lastDiscovery ≤ cacheTimeout →
        (ListAvailableResources (discoverResources s now (.error e)).1 now' c).2
          = .ok ((discoverCoreResources []).map Prod.snd) := by
  intro s now e
  refine ⟨rfl, ?_⟩
  intro now' c h
  have hcond : ¬ (now' - s.lastDiscovery > cacheTimeout) := Nat.not_lt.mpr h
  simp [discoverResources, ListAvailableResources, ensureFreshCache, hcond]

/-- Witness for the amended C1 theorem at a concrete failed pass. -/
theorem discover_failure_leaves_core_only_witness :
    (ListAvailableResources
        (discoverResources builtState 1100 (.error "boom")).1 1100 (.ok [])).2
      = .ok ((discoverCoreResources []).map Prod.snd) :=
  (discover_failure_leaves_core_only builtState 1100 "boom").2 1100 (.ok [])
    (by decide)

/-- C2 fails as stated: configmaps is non-custom and outside the fixed typed
set, yet with an unstructured output target `Get` routes it to the generic
(dynamic) path instead of failing with the unsupported-kind error. -/
theorem nonCustom_unstructured_routed_generic :
    cacheLookup builtState.resourceCache configmapsGVR
      = some ⟨configmapsGVR, ⟨"", "v1", "ConfigMap"⟩, true, false⟩ ∧
    configmapsGVR ∉ [podsGVR, servicesGVR, deploymentsGVR] ∧
    (Get builtState 1000 (.ok [widgetCRD]) configmapsGVR "" .unstructured).2
      = .ok (.dynamicFetch configmapsGVR "") :=
  ⟨rfl, by decide, rfl⟩

/-- C2 (amended): a registry-resolved non-custom triple outside
{pods, services, deployments} that passes the scope check fails with the
unsupported-kind error whenever a typed (non-unstructured) output shape is
requested, but with an unstructured output shape it is routed to the
generic (dynamic) strategy. -/
theorem typed_strategy_fixed_set_get :
    ∀ (s : ClientState) (now : Nat) (c : Except String (List CRDSpec))
      (gvr : GroupVersionResource) (ns : String) (info : ResourceInfo),
      (getResourceInfo s now c gvr).2 = .ok info →
      info.isCustom = false →
      ¬ (ns ≠ "" ∧ info.namespaced = false) →
      gvr ≠ podsGVR → gvr ≠ servicesGVR → gvr ≠ deploymentsGVR →
      (Get s now c gvr ns .typed).2 = .error (.unsupportedKind gvr) ∧
      (Get s now c gvr ns .unstructured).2 = .ok (.dynamicFetch gvr ns) := by
  intro s now c gvr ns info hres hcustom hscope hp hs hd
  constructor
  · rw [Get_snd, hres]
    simp [hscope, hcustom, getTypedResource, hp, hs, hd]
  · rw [Get_snd, hres]
    simp [hscope, hcustom, getTypedResource, getDynamicResource]

/-- Witness for the amended C2 theorem: configmaps with a typed target. -/
theorem typed_strategy_fixed_set_get_witness :
    (Get builtState 1000 (.ok [widgetCRD]) configmapsGVR "" .typed).2
      = .error (.unsupportedKind configmapsGVR) :=
  (typed_strategy_fixed_set_get builtState 1000 (.ok [widgetCRD])
    configmapsGVR "" ⟨configmapsGVR, ⟨"", "v1", "ConfigMap"⟩, true, false⟩
    rfl rfl (by decide) (by decide) (by decide) (by decide)).1

/-- C3 fails as stated: the typed strategy's set for `List` is not the set
for `Get` — services with a typed target is served by `Get`'s typed path
but fails in `List` with the unsupported-kind error. -/
theorem list_get_typed_set_differs :
    (Get builtState 1000 (.ok [widgetCRD]) servicesGVR "" .typed).2
      = .ok (.typedFetch servicesGVR "") ∧
    (ListOp builtState 1000 (.ok [widgetCRD]) servicesGVR "" .typed).2
      = .error (.unsupportedKind servicesGVR) :=
  ⟨rfl, rfl⟩

/-- C3 (amended): `List` performs the same descriptor resolution, the same
scope validation and the same custom/non-custom strategy split as `Get`,
returning the identical state and, except on the services triple, the
identical result; the typed strategy's set for `List` is only
{pods, deployments}: on services with a typed output shape `Get` uses the
typed path while `List` fails with the unsupported-kind error. -/
theorem list_mirrors_get_except_services :
    ∀ (s : ClientState) (now : Nat) (c : Except String (List CRDSpec))
      (gvr : GroupVersionResource) (ns : String) (shape : OutputShape),
      (Get s now c gvr ns shape).1 = (ListOp s now c gvr ns shape).1 ∧
      (shape = .unstructured →
        (ListOp s now c gvr ns shape).2 = (Get s now c gvr ns shape).2) ∧
      (gvr ≠ servicesGVR →
        (ListOp s now c gvr ns shape).2 = (Get s now c gvr ns shape).2) ∧
      (∀ info, (getResourceInfo s now c gvr).2 = .ok info →
        info.isCustom = false → ¬ (ns ≠ "" ∧ info.namespaced = false) →
        shape = .typed → gvr = servicesGVR →
        (Get s now c gvr ns shape).2 = .ok (.typedFetch gvr ns) ∧
        (ListOp s now c gvr ns shape).2 = .error (.unsupportedKind gvr)) := by
  intro s now c gvr ns shape
  refine ⟨?_, ?_, ?_, ?_⟩
  · rw [Get_fst, ListOp_fst]
  · intro h1
    rw [Get_snd, ListOp_snd]
    cases hr : (getResourceInfo s now c gvr).2 with
    | error e => rfl
    | ok info =>
        by_cases hscope : ns ≠ "" ∧ info.namespaced = false
        · simp [hscope]
        · by_cases hc : info.isCustom = false
          · simp [hscope, hc, h1, listTypedResource, getTypedResource,
              listDynamicResource, getDynamicResource]
          · simp [hscope, hc, listDynamicResource, getDynamicResource]
  · intro h2
    rw [Get_snd, ListOp_snd]
    cases hr : (getResourceInfo s now c gvr).2 with
    | error e => rfl
    | ok info =>
        by_cases hscope : ns ≠ "" ∧ info.namespaced = false
        · simp [hscope]
        · by_cases hc : info.isCustom = false
          · simp [hscope, hc, listTypedResource_eq_getTyped gvr ns shape h2]
          · simp [hscope, hc, listDynamicResource, getDynamicResource]
  · intro info hres hc hscope h1 h2
    subst h1
    subst h2
    constructor
    · rw [Get_snd, hres]
      simp only [if_neg hscope, if_pos hc]
      rfl
    · rw [ListOp_snd, hres]
      simp only [if_neg hscope, if_pos hc]
      rfl

/-- Witness for the amended C3 theorem: pods behaves identically in `Get`
and `List`. -/
theorem list_mirrors_get_except_services_witness :
    (ListOp builtState 1000 (.ok [widgetCRD]) podsGVR "default" .typed).2
      = (Get builtState 1000 (.ok [widgetCRD]) podsGVR "default" .typed).2 :=
  (list_mirrors_get_except_services builtState 1000 (.ok [widgetCRD])
    podsGVR "default" .typed).2.2.1 (by decide)

theorem getResourceInfo_fst (s : ClientState) (now : Nat)
    (c : Except String (List CRDSpec)) (gvr : GroupVersionResource) :
    (getResourceInfo s now c gvr).1 = (ensureFreshCache s now c).1 := by
  rcases hef : ensureFreshCache s now c with ⟨s', o⟩
  cases o with
  | some e => simp [getResourceInfo, hef]
  | none => cases hl : cacheLookup s'.resourceCache gvr <;>
      simp [getResourceInfo, hef, hl]

theorem ResourceExists_fst (s : ClientState) (now : Nat)
    (c : Except String (List CRDSpec)) (gvr : GroupVersionResource) :
    (ResourceExists s now c gvr).1 = (getResourceInfo s now c gvr).1 := by
  rcases hr : getResourceInfo s now c gvr with ⟨s', r⟩
  cases r <;> simp [ResourceExists, hr]

theorem ListAvailableResources_fst (s : ClientState) (now : Nat)
    (c : Except String (List CRDSpec)) :
    (ListAvailableResources s now c).1 = (ensureFreshCache s now c).1 := by
  rcases hef : ensureFreshCache s now c with ⟨s', o⟩
  cases o <;> simp [ListAvailableResources, hef]

/-- C4: every descriptor a CRD contributes comes from a served version;
every served version contributes its descriptor, whose triple is
(group, version name, plural), whose namespaced flag is
(declared scope = Namespaced), and whose isCustom flag is true; there is
exactly one contribution per served version; versions with distinct names
yield distinct descriptors; and a registry entry changed by processing the
CRD is one of its served-version descriptors. -/
theorem crd_served_versions_descriptors :
    ∀ (crd : CRDSpec),
      (∀ i ∈ crdServedInfos crd,
        ∃ v ∈ crd.versions, v.served = true ∧ i = crdVersionInfo crd v) ∧
      (∀ v ∈ crd.versions, v.served = true →
        crdVersionInfo crd v ∈ crdServedInfos crd ∧
        (crdVersionInfo crd v).gvr = ⟨crd.group, v.name, crd.names.plural⟩ ∧
        (crdVersionInfo crd v).namespaced = (crd.scope == NamespaceScoped) ∧
        (crdVersionInfo crd v).isCustom = true) ∧
      (crdServedInfos crd).length
        = (crd.versions.filter (fun v => v.served)).length ∧
      (∀ v ∈ crd.versions, ∀ w ∈ crd.versions, v.name ≠ w.name →
        crdVersionInfo crd v ≠ crdVersionInfo crd w) ∧
      (∀ (m : Cache) (k : GroupVersionResource) (i : ResourceInfo),
        cacheLookup (discoverCustomResources m [crd]) k = some i →
        cacheLookup m k = some i ∨ (i ∈ crdServedInfos crd ∧ i.gvr = k)) := by
  intro crd
  refine ⟨?_, ?_, ?_, ?_, ?_⟩
  · intro i hi
    simp only [crdServedInfos, List.mem_map, List.mem_filter] at hi
    obtain ⟨v, ⟨hv, hs⟩, rfl⟩ := hi
    exact ⟨v, hv, hs, rfl⟩
  · intro v hv hs
    refine ⟨?_, rfl, rfl, rfl⟩
    simp only [crdServedInfos, List.mem_map, List.mem_filter]
    exact ⟨v, ⟨hv, hs⟩, rfl⟩
  · simp [crdServedInfos]
  · intro v _ w _ hne heq
    exact hne (congrArg (fun i => i.gvr.version) heq)
  · intro m k i h
    have hstep : discoverCustomResources m [crd]
        = insertInfos m (crdServedInfos crd) := rfl
    rw [hstep] at h
    rcases cacheLookup_insertInfos (crdServedInfos crd) m k with
      ⟨heq, _⟩ | ⟨j, hj, hjk, hlook⟩
    · left
      rw [← heq]
      exact h
    · right
      rw [hlook] at h
      injection h with h'
      rw [← h']
      exact ⟨hj, hjk⟩

/-- Witness for the C4 theorem: the widget CRD's served v1 contributes its
descriptor and the unserved v1alpha1 contributes nothing. -/
theorem crd_served_versions_descriptors_witness :
    crdVersionInfo widgetCRD ⟨"v1", true⟩ ∈ crdServedInfos widgetCRD ∧
    crdServedInfos widgetCRD = [crdVersionInfo widgetCRD ⟨"v1", true⟩] :=
  ⟨((crd_served_versions_descriptors widgetCRD).2.1 ⟨"v1", true⟩ (by decide)
      rfl).1, rfl⟩

/-- C5: a discovery pass yields a registry with unique identity-triple
keys, and any triple emitted by a CRD's served version — in particular one
colliding with a built-in — ends up mapped to a custom descriptor. -/
theorem discovery_unique_keys_custom_wins :
    ∀ (s : ClientState) (now : Nat) (crds : List CRDSpec)
      (k : GroupVersionResource),
      (cacheKeys (discoverResources s now (.ok crds)).1.resourceCache).Nodup ∧
      ((∃ crd ∈ crds, ∃ i ∈ crdServedInfos crd, i.gvr = k) →
        ∃ i, cacheLookup (discoverResources s now (.ok crds)).1.resourceCache k
              = some i ∧ i.isCustom = true) := by
  intro s now crds k
  have hcache : (discoverResources s now (.ok crds)).1.resourceCache
      = discoverCustomResources (discoverCoreResources []) crds := rfl
  constructor
  · rw [hcache]
    exact cacheKeys_discoverCustom_nodup crds (discoverCoreResources [])
      (cacheKeys_insertInfos_nodup coreResources [] (by simp [cacheKeys]))
  · rintro ⟨crd, hcrd, i, hi, hik⟩
    rw [hcache]
    rcases cacheLookup_discoverCustom crds (discoverCoreResources []) k with
      ⟨_, hnone⟩ | ⟨crd', _, j, hj, _, hlook⟩
    · exact absurd hik (hnone crd hcrd i hi)
    · exact ⟨j, hlook, crdServedInfos_isCustom crd' j hj⟩

/-- Witness for the C5 theorem: a CRD whose triple collides with the
built-in pods entry wins the collision. -/
theorem discovery_unique_keys_custom_wins_witness :
    ∃ i, cacheLookup
        (discoverResources ⟨[], 0⟩ 1000 (.ok [podCloneCRD])).1.resourceCache
        podsGVR = some i ∧ i.isCustom = true :=
  (discovery_unique_keys_custom_wins ⟨[], 0⟩ 1000 [podCloneCRD] podsGVR).2
    (by decide)

/-- C6: once the descriptor resolves, a non-empty namespace on a
cluster-scoped descriptor makes both `Get` and `List` fail with the scope
error (no fetch route is produced), while a namespaced descriptor is never
blocked by the scope check — in particular an empty namespace passes. -/
theorem scope_error_blocks_namespaced_request :
    ∀ (s : ClientState) (now : Nat) (c : Except String (List CRDSpec))
      (gvr : GroupVersionResource) (ns : String) (shape : OutputShape)
      (info : ResourceInfo),
      (getResourceInfo s now c gvr).2 = .ok info →
      (ns ≠ "" → info.namespaced = false →
        (Get s now c gvr ns shape).2 = .error (.scopeError gvr) ∧
        (ListOp s now c gvr ns shape).2 = .error (.scopeError gvr)) ∧
      (info.namespaced = true →
        (Get s now c gvr ns shape).2 ≠ .error (.scopeError gvr) ∧
        (ListOp s now c gvr ns shape).2 ≠ .error (.scopeError gvr)) := by
  intro s now c gvr ns shape info hres
  constructor
  · intro hns hn
    constructor
    · rw [Get_snd, hres]
      simp [hns, hn]
    · rw [ListOp_snd, hres]
      simp [hns, hn]
  · intro hn
    have hsc : ¬ (ns ≠ "" ∧ info.namespaced = false) := by simp [hn]
    constructor
    · rw [Get_snd, hres]
      simp only [if_neg hsc]
      by_cases hc : info.isCustom = false
      · simp only [if_pos hc]
        exact getTypedResource_no_scopeError gvr ns shape gvr
      · simp only [if_neg hc]
        simp [getDynamicResource]
    · rw [ListOp_snd, hres]
      simp only [if_neg hsc]
      by_cases hc : info.isCustom = false
      · simp only [if_pos hc]
        exact listTypedResource_no_scopeError gvr ns shape gvr
      · simp only [if_neg hc]
        simp [listDynamicResource]

/-- Witness for the C6 theorem: a namespace on the cluster-scoped
namespaces kind is rejected. -/
theorem scope_error_blocks_namespaced_request_witness :
    (Get builtState 1000 (.ok [widgetCRD]) namespacesGVR "default" .typed).2
      = .error (.scopeError namespacesGVR) :=
  ((scope_error_blocks_namespaced_request builtState 1000 (.ok [widgetCRD])
      namespacesGVR "default" .typed
      ⟨namespacesGVR, ⟨"", "v1", "Namespace"⟩, false, false⟩ rfl).1
    (by decide) rfl).1

/-- C7: when the freshness check succeeded and the triple is absent from
the registry map, `getResourceInfo` fails with the not-found error —
whatever the prior cache state was; `ResourceExists` is true exactly when
`getResourceInfo` yields a descriptor, and false exactly when it fails
with the not-found error or the auto-refresh itself failed. -/
theorem get_notFound_exists_agreement :
    ∀ (s : ClientState) (now : Nat) (c : Except String (List CRDSpec))
      (gvr : GroupVersionResource),
      ((ensureFreshCache s now c).2 = none →
        cacheLookup (ensureFreshCache s now c).1.resourceCache gvr = none →
        (getResourceInfo s now c gvr).2 = .error (.notFound gvr)) ∧
      ((ResourceExists s now c gvr).2 = true ↔
        ∃ i, (getResourceInfo s now c gvr).2 = .ok i) ∧
      ((ResourceExists s now c gvr).2 = false ↔
        ((getResourceInfo s now c gvr).2 = .error (.notFound gvr) ∨
         ∃ msg, (getResourceInfo s now c gvr).2
            = .error (.discoveryError msg))) := by
  intro s now c gvr
  rcases hef : ensureFreshCache s now c with ⟨s', o⟩
  cases o with
  | some e =>
      refine ⟨?_, ?_, ?_⟩
      · intro h1 _
        simp at h1
      · simp [ResourceExists, getResourceInfo, hef]
      · simp [ResourceExists, getResourceInfo, hef]
  | none =>
      cases hl : cacheLookup s'.resourceCache gvr with
      | some info =>
          refine ⟨?_, ?_, ?_⟩
          · intro _ h2
            simp [hl] at h2
          · simp [ResourceExists, getResourceInfo, hef, hl]
          · simp [ResourceExists, getResourceInfo, hef, hl]
      | none =>
          refine ⟨?_, ?_, ?_⟩
          · intro _ _
            simp [getResourceInfo, hef, hl]
          · simp [ResourceExists, getResourceInfo, hef, hl]
          · simp [ResourceExists, getResourceInfo, hef, hl]

/-- Witness for the C7 theorem: a triple absent from the freshly built
registry resolves to the not-found error. -/
theorem get_notFound_exists_agreement_witness :
    (getResourceInfo builtState 1000 (.ok [widgetCRD])
        ⟨"nosuch.io", "v9", "gizmos"⟩).2
      = .error (.notFound ⟨"nosuch.io", "v9", "gizmos"⟩) :=
  (get_notFound_exists_agreement builtState 1000 (.ok [widgetCRD])
    ⟨"nosuch.io", "v9", "gizmos"⟩).1 rfl rfl

/-- C8: the built-in descriptors come from the fixed nine-element
`coreResources` literal — pods, services, configmaps, secrets, namespaces,
deployments, replicasets, daemonsets, statefulsets — taking no cluster
input; each is non-custom, namespaces is the only cluster-scoped entry,
and `discoverCoreResources` registers every one of them under its own
triple. -/
theorem core_resources_fixed_nine :
    coreResources.length = 9 ∧
    coreResources.map (fun i => i.gvr)
      = [podsGVR, servicesGVR, configmapsGVR, secretsGVR, namespacesGVR,
         deploymentsGVR, replicasetsGVR, daemonsetsGVR, statefulsetsGVR] ∧
    coreResources.all (fun i => !i.isCustom) = true ∧
    coreResources.all
      (fun i => i.namespaced == !(i.gvr == namespacesGVR)) = true ∧
    coreResources.all
      (fun i => cacheLookup (discoverCoreResources []) i.gvr == some i)
      = true :=
  ⟨rfl, rfl, by decide, by decide, by decide⟩

/-- C9: the TTL is fixed at 5 minutes; a lookup-driven freshness check
rebuilds via a full discovery pass exactly when the time since the last
successful discovery exceeds the TTL (and in particular when the
timestamp is still unset, once the clock has passed the TTL), and leaves
the state untouched otherwise; every lookup entry point (`get`, `list`,
`exists`, `listAll`) carries the state produced by that freshness check. -/
theorem ttl_auto_refresh :
    ∀ (s : ClientState) (now : Nat) (c : Except String (List CRDSpec))
      (gvr : GroupVersionResource) (ns : String) (shape : OutputShape),
      cacheTimeout = 5 * 60 ∧
      (now - s.lastDiscovery > cacheTimeout →
        ensureFreshCache s now c = discoverResources s now c) ∧
      (now - s.lastDiscovery ≤ cacheTimeout →
        ensureFreshCache s now c = (s, none)) ∧
      (s.lastDiscovery = 0 → cacheTimeout < now →
        ensureFreshCache s now c = discoverResources s now c) ∧
      (getResourceInfo s now c gvr).1 = (ensureFreshCache s now c).1 ∧
      (ResourceExists s now c gvr).1 = (ensureFreshCache s now c).1 ∧
      (ListAvailableResources s now c).1 = (ensureFreshCache s now c).1 ∧
      (Get s now c gvr ns shape).1 = (ensureFreshCache s now c).1 ∧
      (ListOp s now c gvr ns shape).1 = (ensureFreshCache s now c).1 := by
  intro s now c gvr ns shape
  refine ⟨rfl, ?_, ?_, ?_, ?_, ?_, ?_, ?_, ?_⟩
  · intro h
    simp [ensureFreshCache, h]
  · intro h
    simp [ensureFreshCache, Nat.not_lt.mpr h]
  · intro h0 h
    have hgt : now - s.lastDiscovery > cacheTimeout := by
      rw [h0, Nat.sub_zero]
      exact h
    simp [ensureFreshCache, hgt]
  · exact getResourceInfo_fst s now c gvr
  · rw [ResourceExists_fst s now c gvr]
    exact getResourceInfo_fst s now c gvr
  · exact ListAvailableResources_fst s now c
  · rw [Get_fst s now c gvr ns shape]
    exact getResourceInfo_fst s now c gvr
  · rw [ListOp_fst s now c gvr ns shape]
    exact getResourceInfo_fst s now c gvr

/-- Witness for the C9 theorem: an unset timestamp forces a pass at time
301, and a lookup 200 seconds after a successful pass forces none. -/
theorem ttl_auto_refresh_witness :
    ensureFreshCache ⟨[], 0⟩ 301 (.ok []) = discoverResources ⟨[], 0⟩ 301 (.ok [])
      ∧ ensureFreshCache builtState 1200 (.ok []) = (builtState, none) :=
  ⟨(ttl_auto_refresh ⟨[], 0⟩ 301 (.ok []) podsGVR "" .typed).2.2.2.1
      rfl (by decide),
   (ttl_auto_refresh builtState 1200 (.ok []) podsGVR "" .typed).2.2.1
      (by decide)⟩

/-- C10: with an unstructured output target, a resolved non-custom kind
passing the scope check is served by the generic (dynamic) path in both
`Get` and `List`, bypassing the typed switch; and the unsupported-kind
error can only ever arise when a typed output shape was requested. -/
theorem unstructured_bypasses_typed_switch :
    ∀ (s : ClientState) (now : Nat) (c : Except String (List CRDSpec))
      (gvr : GroupVersionResource) (ns : String),
      (∀ info, (getResourceInfo s now c gvr).2 = .ok info →
        info.isCustom = false → ¬ (ns ≠ "" ∧ info.namespaced = false) →
        (Get s now c gvr ns .unstructured).2 = .ok (.dynamicFetch gvr ns) ∧
        (ListOp s now c gvr ns .unstructured).2
          = .ok (.dynamicFetch gvr ns)) ∧
      (∀ (shape : OutputShape) (g : GroupVersionResource),
        (Get s now c gvr ns shape).2 = .error (.unsupportedKind g) →
        shape = .typed) ∧
      (∀ (shape : OutputShape) (g : GroupVersionResource),
        (ListOp s now c gvr ns shape).2 = .error (.unsupportedKind g) →
        shape = .typed) := by
  intro s now c gvr ns
  refine ⟨?_, ?_, ?_⟩
  · intro info hres hc hscope
    constructor
    · rw [Get_snd, hres]
      simp [hscope, hc, getTypedResource, getDynamicResource]
    · rw [ListOp_snd, hres]
      simp [hscope, hc, listTypedResource, listDynamicResource]
  · intro shape g h
    cases shape with
    | typed => rfl
    | unstructured =>
        exfalso
        rw [Get_snd] at h
        cases hr : (getResourceInfo s now c gvr).2 with
        | error e =>
            rw [hr] at h
            simp only [Except.error.injEq] at h
            rcases getResourceInfo_error_shape s now c gvr e hr with
              ⟨msg, hm⟩ | hm <;> rw [h] at hm <;> simp at hm
        | ok info =>
            rw [hr] at h
            by_cases hscope : ns ≠ "" ∧ info.namespaced = false
            · simp [hscope] at h
            · by_cases hc : info.isCustom = false
              · simp [hscope, hc, getTypedResource, getDynamicResource] at h
              · simp [hscope, hc, getDynamicResource] at h
  · intro shape g h
    cases shape with
    | typed => rfl
    | unstructured =>
        exfalso
        rw [ListOp_snd] at h
        cases hr : (getResourceInfo s now c gvr).2 with
        | error e =>
            rw [hr] at h
            simp only [Except.error.injEq] at h
            rcases getResourceInfo_error_shape s now c gvr e hr with
              ⟨msg, hm⟩ | hm <;> rw [h] at hm <;> simp at hm
        | ok info =>
            rw [hr] at h
            by_cases hscope : ns ≠ "" ∧ info.namespaced = false
            · simp [hscope] at h
            · by_cases hc : info.isCustom = false
              · simp [hscope, hc, listTypedResource, listDynamicResource] at h
              · simp [hscope, hc, listDynamicResource] at h

/-- Witness for the C10 theorem: secrets — non-custom, outside the typed
switch — served generically when the target is unstructured. -/
theorem unstructured_bypasses_typed_switch_witness :
    (Get builtState 1000 (.ok [widgetCRD]) secretsGVR "" .unstructured).2
      = .ok (.dynamicFetch secretsGVR "") :=
  ((unstructured_bypasses_typed_switch builtState 1000 (.ok [widgetCRD])
      secretsGVR "").1
    ⟨secretsGVR, ⟨"", "v1", "Secret"⟩, true, false⟩ rfl rfl (by decide)).1

end Kube
